import Mathlib

/-!
Verification development for the repo-analyst RAG pipeline
(`src/core/rag.py`, `src/core/judge.py`).

The Python pipeline is shallowly embedded: every LangGraph node of
`RAGPipeline` becomes a pure Lean function on an explicit `RAGState`
record, and every call out to an external service (sentence-transformer
embedding, FAISS search, the two LLM endpoints) is passed in as an
explicit argument describing that call's outcome, so that the
orchestration logic itself is fully executable and provable.

Modelling conventions, shared by all definitions below:
* Python `Optional[str]` fields become `Option String`; the idiom
  `if state.get('error'):` tests Python truthiness (both `None` and the
  empty string are falsy), embedded as `pyTruthy`.
* Python float similarity scores are embedded as `Rat`: the pipeline
  only ever stores and compares them, never does arithmetic on them, so
  any linearly ordered field is faithful; the decimal rendering used
  inside f-strings is abstracted by `toString`.
* Python string slicing/len operate on code points, matching Lean's
  `String.data : List Char`.
-/

namespace RepoAnalyst

/-- Python truthiness of an `Optional[str]` value: `None` and `""` are
falsy, every other string is truthy (`if state.get('error'):`). -/
def pyTruthy : Option String → Bool
  | none => false
  | some s => !s.isEmpty

/-- Python slicing `s[:n]` on a string (by code points). -/
def pyTake (s : String) (n : Nat) : String :=
  String.mk (s.data.take n)

/-- Python list indexing `l[i]` with negative-index support:
`l[i]` is `l[len l + i]` for `i < 0`, and out-of-range access (either
direction) yields `none` (Python raises `IndexError`). -/
def pyListGet (l : List α) (i : Int) : Option α :=
  if 0 ≤ i then l.get? i.toNat
  else if 0 ≤ (l.length : Int) + i then l.get? ((l.length : Int) + i).toNat
  else none

/-- Python `l[-k:]` slicing used by the history truncation
`self.conversation_history[-max_history:]`: the argument is the raw
(possibly zero) start index `-k`.  Note `-0 = 0`, so `l[-0:]` is the
whole list.  A negative start counts from the end and clamps at 0. -/
def pySliceFrom (l : List α) (s : Int) : List α :=
  if s < 0 then l.drop ((l.length : Int) + s).toNat
  else l.drop s.toNat

/-- A single turn in the conversation (`ConversationTurn` TypedDict). -/
structure ConversationTurn where
  query : String
  answer : String
deriving Repr, DecidableEq

/-- A retrieved evidence chunk.  The metadata records in
`chunks.jsonl` carry `file_path`, `start_line`, `end_line`, `text`
(plus fields the pipeline never reads); `_retrieve_chunks` attaches the
transient `score` (`chunk['score'] = float(score)`). -/
structure Chunk where
  file_path : String
  start_line : Nat
  end_line : Nat
  text : String
  score : Rat
deriving Repr, DecidableEq

/-- State threaded through the LangGraph flow (`RAGState` TypedDict in
`src/core/rag.py`).  The query embedding is opaque to every claim, so a
`List Rat` stands in for the numpy array. -/
structure RAGState where
  query : String
  conversation_history : List ConversationTurn
  query_embedding : Option (List Rat)
  retrieved_chunks : List Chunk
  context : String
  answer : String
  validation_passed : Bool
  validation_message : String
  judge_score : Option Int
  judge_feedback : Option String
  retry_count : Nat
  is_retry : Bool
  error : Option String
deriving Repr, DecidableEq

/-- The initial state built by `RAGPipeline.query` for a fresh user
query, with the session history snapshot copied in. -/
def initial_state (user_query : String) (history : List ConversationTurn) : RAGState :=
  { query := user_query
    conversation_history := history
    query_embedding := none
    retrieved_chunks := []
    context := ""
    answer := ""
    validation_passed := false
    validation_message := ""
    judge_score := none
    judge_feedback := none
    retry_count := 0
    is_retry := false
    error := none }

/-- Node `_embed_query`: the sentence-transformer call is the argument
`embed` (`.ok v` when `model.encode` succeeds, `.error e` when it
raises).  On failure the node stores `"Error embedding query: ..."` in
`error`; note the `try` block runs regardless of any previously set
error (this node is the graph entry point, so in a pipeline run its
input error is always `None`). -/
def embed_query (embed : Except String (List Rat)) (state : RAGState) : RAGState :=
  match embed with
  | .ok v => { state with query_embedding := some v }
  | .error e => { state with error := some ("Error embedding query: " ++ e) }

/-- The loop body of `_retrieve_chunks` over the FAISS search output
`zip(indices[0], scores[0])`: an index is admitted when
`idx < len(self.chunks) and score >= min_score` (Python does not rule
out negative indices), then `self.chunks[idx].copy()` is taken with
Python indexing (negative indices count from the end; a too-negative
index raises `IndexError`, which the surrounding `except` turns into a
retrieval error). -/
def collect_results (chunks : List Chunk) (min_score : Rat) :
    List (Int × Rat) → Except String (List Chunk)
  | [] => .ok []
  | (idx, score) :: rest =>
    if idx < (chunks.length : Int) ∧ min_score ≤ score then
      match pyListGet chunks idx with
      | some c => (collect_results chunks min_score rest).map
          (fun rs => { c with score := score } :: rs)
      | none => .error "list index out of range"
    else
      collect_results chunks min_score rest

/-- The error message set when no chunk survives the threshold
(f-string rendering of the float threshold abstracted by `toString`). -/
def no_relevant_message (min_score : Rat) : String :=
  "No relevant information found in the repository (all scores below " ++
    toString min_score ++ " threshold)."

/-- Node `_retrieve_chunks`: skipped when `error` is truthy; otherwise
filters the search results (argument `search_results`, the outcome of
`self.index.search(query_embedding, top_k)`), stores the survivors, and
sets the no-relevant-information error when none survive.  An
`IndexError` inside the loop is caught and stored as a retrieval
error (in that case `retrieved_chunks` is left untouched, matching the
Python assignment happening only after the loop). -/
def retrieve_chunks (chunks : List Chunk) (min_score : Rat)
    (search_results : List (Int × Rat)) (state : RAGState) : RAGState :=
  if pyTruthy state.error then state
  else
    match collect_results chunks min_score search_results with
    | .error e => { state with error := some ("Error retrieving chunks: " ++ e) }
    | .ok results =>
      let state1 := { state with retrieved_chunks := results }
      if results.isEmpty then
        { state1 with error := some (no_relevant_message min_score) }
      else
        state1

/-- First fragment of the retry-feedback preamble built in
`_build_context` (the f-string quotes the previous answer between
single quotes, written `\x27` here). -/
def retry_note_head : String :=
  "Note: You tried to answer this before, and gave this answer \x27"

/-- Middle fragment of the retry-feedback preamble, between the quoted
previous answer and the judge feedback. -/
def retry_note_mid : String :=
  "\x27 but it was not good enough because of "

/-- Closing fragment of the retry-feedback preamble. -/
def retry_note_tail : String :=
  ". Try again and take into consideration this feedback. " ++
  "Do not answer to this feedback, or comment on it. " ++
  "It is only here to make you produce a better answer. Do not reply to it.\n\n"

/-- The `feedback_section` local of `_build_context`: present exactly
when `state.get('is_retry') and state.get('judge_feedback')` is truthy
(so a `None` or empty feedback string yields no preamble).  The
`state.get('answer', 'N/A')` default never fires because the `answer`
key is always initialized. -/
def feedback_section (state : RAGState) : String :=
  if state.is_retry && pyTruthy state.judge_feedback then
    retry_note_head ++ state.answer ++ retry_note_mid ++
      state.judge_feedback.getD "" ++ retry_note_tail
  else ""

/-- One entry of `context_parts` in `_build_context` (0-based position
`i`, printed 1-based; the `{score:.3f}` float rendering is abstracted
by `toString`). -/
def chunk_part (i : Nat) (c : Chunk) : String :=
  "[Chunk " ++ toString (i + 1) ++ "] [" ++ c.file_path ++ ":" ++
    toString c.start_line ++ "-" ++ toString c.end_line ++ "] (relevance: " ++
    toString c.score ++ ")\n" ++ c.text

/-- The joined `context` local of `_build_context`. -/
def chunks_context (chunks : List Chunk) : String :=
  String.intercalate "\n\n" (chunks.mapIdx chunk_part)

/-- The body of the history loop in `_build_context`
(`enumerate(conversation_history, 1)`). -/
def history_lines : Nat → List ConversationTurn → String
  | _, [] => ""
  | i, t :: ts =>
    "\n[Previous Query " ++ toString i ++ "]: " ++ t.query ++ "\n" ++
    "[Previous Answer " ++ toString i ++ "]: " ++ t.answer ++ "\n" ++
    history_lines (i + 1) ts

/-- The `history_section` local of `_build_context`: emitted only when
the snapshot is nonempty and `conversation.enable_history` holds. -/
def history_section (enable_history : Bool) (history : List ConversationTurn) : String :=
  if !history.isEmpty && enable_history then
    "\n\n--- CONVERSATION HISTORY ---\n" ++ history_lines 1 history ++
      "\n--- END OF HISTORY ---\n"
  else ""

/-- Everything of the `_build_context` prompt f-string that follows the
retry-feedback preamble. -/
def prompt_after_feedback (enable_history : Bool) (state : RAGState) : String :=
  "You are a code analysis assistant for the httpx library.\n" ++
  "Answer the question using ONLY the provided code chunks.\n\n" ++
  history_section enable_history state.conversation_history ++
  "\n\nCode Context:\n" ++ chunks_context state.retrieved_chunks ++
  "\n\n--- CURRENT USER QUERY ---\nQuestion: " ++ state.query ++
  "\n\nInstructions:\n" ++
  "- Answer based ONLY on the code chunks provided above\n" ++
  "- Include specific file:line citations in your answer (e.g., httpx/_client.py:45-67)\n" ++
  "- Be concise and accurate\n" ++
  "- If the context doesn\x27t contain enough information, say so clearly\n" ++
  "- DO NOT make up information not present in the chunks\n" ++
  "- Reference previous conversation if relevant to the current query\n\nAnswer:"

/-- Node `_build_context`: skipped on a truthy error; sets the
no-relevant-information error when the retrieved chunk list is empty;
otherwise stores the assembled prompt in `context`.  The Python
`except` branch is unreachable in the model because every chunk record
carries all the keys the formatter reads. -/
def build_context (enable_history : Bool) (state : RAGState) : RAGState :=
  if pyTruthy state.error then state
  else if state.retrieved_chunks.isEmpty then
    { state with error := some "No relevant information found in the repository." }
  else
    { state with context := feedback_section state ++ prompt_after_feedback enable_history state }

/-- Node `_generate_answer`: with a truthy error the error text is
copied into `answer`; otherwise the LLM call outcome `llm` is stored,
and an LLM failure stores the failure description as the answer and
sets `error` to `str(e)`. -/
def generate_answer (llm : Except String String) (state : RAGState) : RAGState :=
  if pyTruthy state.error then { state with answer := state.error.getD "" }
  else
    match llm with
    | .ok content => { state with answer := content }
    | .error e => { state with answer := "Error generating answer: " ++ e, error := some e }

/-- Node `_judge_answer`: with a truthy error or no judge handle the
judge service is not consulted and the score defaults to 5; otherwise
`outcome` is the result of `judge.evaluate_answer` (`.error` covers an
exception escaping the call, which degrades to the neutral score 4;
`evaluate_answer`'s own internal `except` returns `(4, None)` the same
way, so both catch sites collapse onto the `.error` constructor). -/
def judge_answer (has_judge : Bool) (outcome : Except String (Int × Option String))
    (state : RAGState) : RAGState :=
  if pyTruthy state.error || !has_judge then
    { state with judge_score := some 5, judge_feedback := none }
  else
    match outcome with
    | .ok (score, feedback) => { state with judge_score := some score, judge_feedback := feedback }
    | .error _ => { state with judge_score := some 4, judge_feedback := none }

/-- Conditional edge `_should_retry`.  `state.get('judge_score', 5)`
is embedded as `getD 5`; whenever this edge runs the judge node has
already stored an integer score, so the default is never consulted in
a pipeline execution. -/
def should_retry (has_judge : Bool) (max_retries : Nat) (state : RAGState) : String :=
  if !has_judge then "finalize"
  else if state.judge_score.getD 5 ≤ 2 ∧ state.retry_count < max_retries then "retry"
  else "finalize"

/-- Node `_prepare_retry`. -/
def prepare_retry (state : RAGState) : RAGState :=
  { state with retry_count := state.retry_count + 1, is_retry := true }

/-- The text of `AnswerJudge.get_cannot_help_message`, verbatim. -/
def cannot_help_message : String :=
  "I cannot provide a reliable answer to this query based on the available " ++
  "information in the repository. The evidence found does not sufficiently " ++
  "support a well-grounded response. Please try rephrasing your question " ++
  "or asking about a different aspect of the codebase."

/-- Embedding of `AnswerJudge.get_confidence_message` with the configured
`confidence_thresholds` (defaults `high = 5`, `medium = 3`). -/
def get_confidence_message (high_threshold medium_threshold score : Int) : Option String :=
  if high_threshold ≤ score then none
  else if medium_threshold ≤ score then
    some ("\n\n[Note: Low confidence in this answer. " ++
      "The information provided may be incomplete or partially speculative. " ++
      "Please verify important details.]")
  else
    some ("\n\n[Warning: Very low confidence in this answer. " ++
      "The response may not be well-grounded in the available evidence.]")

/-- Node `_finalize_answer`: a no-op without a judge; replaces the
answer by the cannot-help message when the score is still ≤ 2 with
retries exhausted; otherwise appends the confidence message when one
is produced (the Python truthiness test `if confidence_msg:` agrees
with the `Option` match because both messages are nonempty). -/
def finalize_answer (has_judge : Bool) (high_threshold medium_threshold : Int)
    (max_retries : Nat) (state : RAGState) : RAGState :=
  if !has_judge then state
  else
    let score := state.judge_score.getD 5
    if score ≤ 2 ∧ max_retries ≤ state.retry_count then
      { state with answer := cannot_help_message }
    else
      match get_confidence_message high_threshold medium_threshold score with
      | some m => { state with answer := state.answer ++ m }
      | none => state

/-- Character class `\w` of the citation regex (ASCII reading; the
Unicode extension of Python `\w` is irrelevant to every claim). -/
def isWordChar (c : Char) : Bool := c.isAlphanum || c = '_'

/-- Character class `[/\\]` (the path separator alternatives). -/
def isPathSep (c : Char) : Bool := c = '/' || c = '\\'

/-- Character class `[\w/\\._-]` of the citation regex. -/
def isPathChar (c : Char) : Bool := isWordChar c || isPathSep c || c = '.' || c = '-'

/-- Matching of `\w+[/\\][\w/\\._-]+:\d+(?:-\d+)?` anchored at the head
of the character list.  Greedy maximal runs are exact here: each
mandatory delimiter (`[/\\]`, `:`) lies outside the class of the run
preceding it, so the regex engine's backtracking can never produce a
match the maximal-munch scan misses; the trailing `(?:-\d+)?` is
optional and cannot affect matchability. -/
def citation_match_here (cs : List Char) : Bool :=
  let w := cs.takeWhile isWordChar
  if w.isEmpty then false
  else
    match cs.drop w.length with
    | [] => false
    | c :: rest1 =>
      if isPathSep c then
        let p := rest1.takeWhile isPathChar
        if p.isEmpty then false
        else
          match rest1.drop p.length with
          | ':' :: rest2 => !(rest2.takeWhile Char.isDigit).isEmpty
          | _ => false
      else false

/-- Search (`re.search`) over all start positions. -/
def citation_search : List Char → Bool
  | [] => false
  | c :: rest => citation_match_here (c :: rest) || citation_search rest

/-- Whether the answer contains a `file:line` citation token — the
common predicate behind `re.findall(citation_pattern, answer)`
(truthiness of the match list) and `re.search(citation_pattern,
answer)` in `_validate_answer`. -/
def has_citation (answer : String) : Bool := citation_search answer.data

/-- The `uncertainty_phrases` list of `_validate_answer`. -/
def uncertainty_phrases : List String :=
  ["I don\x27t have enough information",
   "The provided context doesn\x27t",
   "I cannot find",
   "not enough information"]

/-- Python substring membership `needle in hay` on character lists. -/
def sub_search (needle : List Char) : List Char → Bool
  | [] => needle.isEmpty
  | c :: rest => needle.isPrefixOf (c :: rest) || sub_search needle rest

/-- The hedge test `any(phrase.lower() in answer.lower() for phrase in
uncertainty_phrases)`. -/
def has_hedge (answer : String) : Bool :=
  uncertainty_phrases.any (fun p => sub_search p.toLower.data answer.toLower.data)

/-- The `validation.*` configuration options read by
`_validate_answer` (defaults `true` / `50` / `true`). -/
structure ValidationConfig where
  require_citations : Bool
  min_answer_length : Nat
  check_grounding : Bool
deriving Repr, DecidableEq

/-- Check 1 of `_validate_answer` (citation presence).  Its guard
re-reads `validation.require_citations`, which is always true at this
point because a false value already returned earlier. -/
def citation_issue (cfg : ValidationConfig) (answer : String) : List String :=
  if cfg.require_citations && !has_citation answer then
    ["Answer lacks specific file:line citations"]
  else []

/-- Check 2 of `_validate_answer` (minimum length). -/
def length_issue (cfg : ValidationConfig) (answer : String) : List String :=
  if answer.length < cfg.min_answer_length then
    ["Answer too short (" ++ toString answer.length ++ " < " ++
      toString cfg.min_answer_length ++ " characters)"]
  else []

/-- Check 3 of `_validate_answer` (grounding heuristic). -/
def grounding_issue (cfg : ValidationConfig) (answer : String) : List String :=
  if cfg.check_grounding && answer.length < 100 && !has_citation answer && !has_hedge answer then
    ["Answer may not be properly grounded (no citations and no uncertainty expressed)"]
  else []

/-- The accumulated `validation_issues` list. -/
def validation_issues (cfg : ValidationConfig) (answer : String) : List String :=
  citation_issue cfg answer ++ length_issue cfg answer ++ grounding_issue cfg answer

/-- Node `_validate_answer`: with a truthy error validation is skipped
and fails; with `require_citations` disabled validation passes
trivially before any check runs; otherwise the three checks decide. -/
def validate_answer (cfg : ValidationConfig) (state : RAGState) : RAGState :=
  if pyTruthy state.error then
    { state with validation_passed := false,
                 validation_message := "Validation skipped due to error: " ++ state.error.getD "" }
  else if !cfg.require_citations then
    { state with validation_passed := true,
                 validation_message := "Validation disabled in config" }
  else
    let issues := validation_issues cfg state.answer
    if issues.isEmpty then
      { state with validation_passed := true,
                   validation_message := "Answer passed all validation checks" }
    else
      { state with validation_passed := false,
                   validation_message := "Validation issues: " ++ String.intercalate "; " issues }

/-- Abstraction of the raw judge-LLM response for
`AnswerJudge._parse_judge_response`.  A response string falls in
exactly one shape: `structured rawScore rawFeedback` when `json.loads`
succeeds and `int(result.get('score', 4))` converts (`rawScore` that
integer — a missing key contributes its default through `int(4)` —
and `rawFeedback` the string-or-null `feedback` field); `fallback d
fb` when `json.loads` or `int(...)` raises (caught as
`JSONDecodeError`/`ValueError`), with `d` the digit captured by
`re.search(r'score[:\s]+(\d)', ...)` (a single `\d` character, though
the clamp makes the bound independent of that) and `fb` the text
captured by the feedback regex.  (A JSON response whose `score` is a
non-int-convertible non-string raises `TypeError`, which escapes this
parser and is absorbed by `evaluate_answer`'s own handler — no score
is returned by the parser on that path.) -/
inductive JudgeResponseShape where
  | structured (rawScore : Int) (rawFeedback : Option String)
  | fallback (scoreDigit : Option Nat) (feedbackText : Option String)
deriving Repr, DecidableEq

/-- Embedding of `AnswerJudge._parse_judge_response`.  On the structured path the
truncation guard `if feedback and len(feedback) > 150:` collapses to
the length test, since a string longer than 150 is necessarily truthy.
On the fallback path the captured feedback is `.strip()`ped then
sliced to 150. -/
def parse_judge_response : JudgeResponseShape → Int × Option String
  | .structured rawScore rawFeedback =>
    let score := max 1 (min 6 rawScore)
    let feedback :=
      if score ≤ 2 then
        match rawFeedback with
        | some fb => if 150 < fb.length then some (pyTake fb 147 ++ "...") else some fb
        | none => none
      else none
    (score, feedback)
  | .fallback scoreDigit feedbackText =>
    let score : Int :=
      match scoreDigit with
      | some d => max 1 (min 6 (d : Int))
      | none => 4
    let feedback :=
      if score ≤ 2 then feedbackText.map (fun s => pyTake s.trim 150) else none
    (score, feedback)

/-- The per-query observables that drive the history update at the end
of `RAGPipeline.query`. -/
structure QueryOutcome where
  query : String
  answer : String
  validation_passed : Bool
  error : Option String
deriving Repr, DecidableEq

/-- The history post-processing of `RAGPipeline.query`: append the
turn when `final_state['validation_passed'] and not
final_state.get('error')`, then truncate with
`self.conversation_history[-max_history:]` when the length exceeds
`max_history` (note the Python slice: for `max_history = 0` the slice
start `-0` is `0`, so nothing is dropped). -/
def update_history (max_history : Nat) (outcome : QueryOutcome)
    (history : List ConversationTurn) : List ConversationTurn :=
  if outcome.validation_passed && !pyTruthy outcome.error then
    let h := history ++ [⟨outcome.query, outcome.answer⟩]
    if max_history < h.length then pySliceFrom h (-(max_history : Int)) else h
  else history

/-- A session: the history updates folded over a sequence of query
outcomes. -/
def run_session (max_history : Nat) :
    List QueryOutcome → List ConversationTurn → List ConversationTurn
  | [], history => history
  | o :: os, history => run_session max_history os (update_history max_history o history)

/-- The full log of turns a session would retain with no truncation:
exactly the outcomes that pass the append condition, in order. -/
def session_log : List QueryOutcome → List ConversationTurn
  | [] => []
  | o :: os =>
    (if o.validation_passed && !pyTruthy o.error then
      [⟨o.query, o.answer⟩] else []) ++ session_log os

/-- The judging arm of the compiled LangGraph, entered at the point
where `_judge_answer` has just produced a score: the conditional edge
`_should_retry` either re-enters the `prepare_retry → build_context →
generate_answer → judge_answer` cycle or exits through
`_finalize_answer`.  The attempt counter `attempt` indexes the
per-iteration outcomes of the two LLM services (`gen` for the
generation call, `judge` for `evaluate_answer`); the loop terminates
because `_prepare_retry` increments `retry_count`, which the retry
guard bounds by `max_retries`. -/
def judge_loop (enable_history : Bool) (high_threshold medium_threshold : Int)
    (max_retries : Nat) (gen : Nat → Except String String)
    (judge : Nat → Except String (Int × Option String))
    (attempt : Nat) (state : RAGState) : RAGState :=
  if h : should_retry true max_retries state = "retry" then
    judge_loop enable_history high_threshold medium_threshold max_retries gen judge (attempt + 1)
      (judge_answer true (judge attempt)
        (generate_answer (gen attempt)
          (build_context enable_history (prepare_retry state))))
  else
    finalize_answer true high_threshold medium_threshold max_retries state
termination_by max_retries - state.retry_count
decreasing_by
  have hc : state.judge_score.getD 5 ≤ 2 ∧ state.retry_count < max_retries := by
    by_contra hn
    simp only [should_retry] at h
    rw [if_neg (by decide), if_neg hn] at h
    exact absurd h (by decide)
  have h1 : (build_context enable_history (prepare_retry state)).retry_count
      = state.retry_count + 1 := by
    simp only [build_context, prepare_retry]
    split
    · rfl
    · split <;> rfl
  have h2 : (generate_answer (gen attempt) (build_context enable_history
      (prepare_retry state))).retry_count = state.retry_count + 1 := by
    simp only [generate_answer]
    split
    · exact h1
    · split <;> exact h1
  have h3 : (judge_answer true (judge attempt) (generate_answer (gen attempt)
      (build_context enable_history (prepare_retry state)))).retry_count
      = state.retry_count + 1 := by
    simp only [judge_answer]
    split
    · exact h2
    · split <;> exact h2
  simp only [h3]
  omega

/-- A sample query used by the concrete instantiations below (the
end-to-end example of the spec). -/
def demo_query : String := "How does the library handle timeouts?"

/-- A sample loaded evidence chunk (score field still at its unset
placeholder 0, as for a freshly loaded metadata record). -/
def demo_chunk : Chunk :=
  { file_path := "httpx/_client.py", start_line := 45, end_line := 67,
    text := "class Client:", score := 0 }

/-- A second sample evidence chunk. -/
def demo_chunk2 : Chunk :=
  { file_path := "httpx/_config.py", start_line := 10, end_line := 20,
    text := "DEFAULT_TIMEOUT_CONFIG = Timeout(timeout=5.0)", score := 0 }

/-- Sample loaded-chunk store. -/
def c3_chunks : List Chunk := [demo_chunk, demo_chunk2]

/-- Sample FAISS output: chunk 0 scores 2, chunk 1 scores 0, so with a
threshold of 1 only chunk 0 survives.  (Integer-valued rationals keep
every concrete instantiation kernel-computable.) -/
def c3_search : List (Int × Rat) := [((0 : Int), (2 : Rat)), ((1 : Int), (0 : Rat))]

/-- A state as it stands right after `_judge_answer` stored a low
score on the first generation attempt. -/
def c1_state : RAGState :=
  { initial_state demo_query [] with
      retrieved_chunks := [{ demo_chunk with score := 1 }]
      answer := "first answer"
      judge_score := some 2
      judge_feedback := some "not grounded in evidence" }

/-- Generation outcomes for the retry attempts of the sample run. -/
def c1_gen : Nat → Except String String := fun _ => .ok "second answer"

/-- Judge outcomes for the retry attempts of the sample run: the score
stays at 2, so the single allowed retry is exhausted low. -/
def c1_judge : Nat → Except String (Int × Option String) :=
  fun _ => .ok (2, some "still not grounded")

/-- A state whose error field holds the empty string — non-null, yet
falsy for every `state.get('error')` test in the pipeline. -/
def c2_state : RAGState := { initial_state "q" [] with error := some "" }

/-- A successful query outcome, eligible for history retention. -/
def c5_outcome : QueryOutcome :=
  { query := "q1", answer := "a1", validation_passed := true, error := none }

/-- A retry state whose judge feedback is the empty string: non-null,
but falsy in `state.get('is_retry') and state.get('judge_feedback')`. -/
def c6_state : RAGState :=
  { initial_state "q" [] with
      retrieved_chunks := [{ demo_chunk with score := 1 }]
      answer := "previous answer"
      is_retry := true
      judge_feedback := some "" }

/-- A retry state with a genuine (nonempty) judge feedback. -/
def c6w_state : RAGState :=
  { initial_state "q" [] with
      retrieved_chunks := [{ demo_chunk with score := 1 }]
      answer := "previous answer"
      is_retry := true
      judge_feedback := some "missing citations" }

/-- A clean post-generation state (no error, answer produced). -/
def c7_state : RAGState :=
  { initial_state demo_query [] with
      retrieved_chunks := [{ demo_chunk with score := 1 }]
      answer := "generated answer" }

/-- A validation configuration with the citation requirement switched
off globally. -/
def c8_cfg : ValidationConfig :=
  { require_citations := false, min_answer_length := 50, check_grounding := true }

/-- A state carrying a short, citation-free answer. -/
def c8_state : RAGState := { initial_state "q" [] with answer := "hi" }

/-- A state on the error path: the embedding stage failed. -/
def c10_state : RAGState :=
  { initial_state demo_query [] with error := some "Error embedding query: boom" }

/-- A state carrying a nonempty (truthy) error. -/
def c2w_state : RAGState := { initial_state "q" [] with error := some "boom" }

/-- The default validation configuration (`require_citations = true`,
`min_answer_length = 50`, `check_grounding = true`). -/
def default_validation_cfg : ValidationConfig :=
  { require_citations := true, min_answer_length := 50, check_grounding := true }

theorem retry_count_build_context (eh : Bool) (s : RAGState) :
    (build_context eh s).retry_count = s.retry_count := by
  simp only [build_context]
  split
  · rfl
  · split <;> rfl

theorem retry_count_generate_answer (llm : Except String String) (s : RAGState) :
    (generate_answer llm s).retry_count = s.retry_count := by
  simp only [generate_answer]
  split
  · rfl
  · split <;> rfl

theorem retry_count_judge_answer (hj : Bool) (outcome : Except String (Int × Option String))
    (s : RAGState) : (judge_answer hj outcome s).retry_count = s.retry_count := by
  simp only [judge_answer]
  split
  · rfl
  · split <;> rfl

theorem retry_count_finalize_answer (hj : Bool) (hi med : Int) (mr : Nat) (s : RAGState) :
    (finalize_answer hj hi med mr s).retry_count = s.retry_count := by
  simp only [finalize_answer]
  split
  · rfl
  · split
    · rfl
    · split <;> rfl

theorem judge_score_finalize_answer (hj : Bool) (hi med : Int) (mr : Nat) (s : RAGState) :
    (finalize_answer hj hi med mr s).judge_score = s.judge_score := by
  simp only [finalize_answer]
  split
  · rfl
  · split
    · rfl
    · split <;> rfl

theorem error_finalize_answer (hj : Bool) (hi med : Int) (mr : Nat) (s : RAGState) :
    (finalize_answer hj hi med mr s).error = s.error := by
  simp only [finalize_answer]
  split
  · rfl
  · split
    · rfl
    · split <;> rfl

theorem should_retry_eq_retry_iff (m : Nat) (s : RAGState) :
    should_retry true m s = "retry" ↔ s.judge_score.getD 5 ≤ 2 ∧ s.retry_count < m := by
  simp only [should_retry, Bool.not_true, Bool.false_eq_true, if_false]
  split
  · exact iff_of_true rfl (by assumption)
  · exact iff_of_false (by decide) (by assumption)

theorem pyTruthy_some (e : String) (he : e ≠ "") : pyTruthy (some e) = true := by
  simp only [pyTruthy, Bool.not_eq_true']
  exact Bool.eq_false_iff.mpr (fun hc => he ((String.isEmpty_iff e).mp hc))

theorem judge_loop_retry_count_le (eh : Bool) (hi med : Int) (m : Nat)
    (gen : Nat → Except String String) (judge : Nat → Except String (Int × Option String))
    (att : Nat) (s : RAGState) (h : s.retry_count ≤ m) :
    (judge_loop eh hi med m gen judge att s).retry_count ≤ m := by
  induction att, s using judge_loop.induct eh hi med m gen judge with
  | case1 att s hr ih =>
    rw [judge_loop, dif_pos hr]
    refine ih ?_
    have hc := (should_retry_eq_retry_iff m s).mp hr
    simp only [retry_count_judge_answer, retry_count_generate_answer,
      retry_count_build_context, prepare_retry]
    omega
  | case2 att s hr =>
    rw [judge_loop, dif_neg hr, retry_count_finalize_answer]
    exact h

theorem judge_loop_cannot_help (eh : Bool) (hi med : Int) (m : Nat)
    (gen : Nat → Except String String) (judge : Nat → Except String (Int × Option String))
    (att : Nat) (s : RAGState)
    (h : (judge_loop eh hi med m gen judge att s).judge_score.getD 5 ≤ 2) :
    (judge_loop eh hi med m gen judge att s).answer = cannot_help_message := by
  induction att, s using judge_loop.induct eh hi med m gen judge with
  | case1 att s hr ih =>
    rw [judge_loop, dif_pos hr] at h ⊢
    exact ih h
  | case2 att s hr =>
    rw [judge_loop, dif_neg hr] at h ⊢
    rw [judge_score_finalize_answer] at h
    have hlow := h
    have hc := (should_retry_eq_retry_iff m s).not.mp hr
    have hm : m ≤ s.retry_count := by
      by_contra hlt
      exact hc ⟨hlow, by omega⟩
    simp only [finalize_answer, Bool.not_true, Bool.false_eq_true, if_false]
    rw [if_pos ⟨hlow, hm⟩]

/-- C1: with judging enabled, the retry edge out of `_judge_answer` is
taken iff the judge score is ≤ 2 and `retry_count < max_retries`; each
pass through `_prepare_retry` increments `retry_count` by exactly 1;
along the whole judging loop `retry_count` never exceeds
`max_retries`; and when the loop exits with a final score still ≤ 2,
`_finalize_answer` makes the answer exactly the canonical cannot-help
refusal message, replacing the generated text. -/
theorem C1_retry_discipline (eh : Bool) (hi med : Int) (m : Nat)
    (gen : Nat → Except String String) (judge : Nat → Except String (Int × Option String))
    (att : Nat) (s : RAGState) (h : s.retry_count ≤ m) :
    (should_retry true m s = "retry" ↔ s.judge_score.getD 5 ≤ 2 ∧ s.retry_count < m)
    ∧ (prepare_retry s).retry_count = s.retry_count + 1
    ∧ (judge_loop eh hi med m gen judge att s).retry_count ≤ m
    ∧ ((judge_loop eh hi med m gen judge att s).judge_score.getD 5 ≤ 2 →
        (judge_loop eh hi med m gen judge att s).answer = cannot_help_message) :=
  ⟨should_retry_eq_retry_iff m s, rfl,
   judge_loop_retry_count_le eh hi med m gen judge att s h,
   fun hlow => judge_loop_cannot_help eh hi med m gen judge att s hlow⟩

theorem C1_retry_discipline_witness :
    c1_state.retry_count ≤ 1
    ∧ ((should_retry true 1 c1_state = "retry" ↔
          c1_state.judge_score.getD 5 ≤ 2 ∧ c1_state.retry_count < 1)
      ∧ (prepare_retry c1_state).retry_count = c1_state.retry_count + 1
      ∧ (judge_loop true 5 3 1 c1_gen c1_judge 0 c1_state).retry_count ≤ 1
      ∧ ((judge_loop true 5 3 1 c1_gen c1_judge 0 c1_state).judge_score.getD 5 ≤ 2 →
          (judge_loop true 5 3 1 c1_gen c1_judge 0 c1_state).answer = cannot_help_message)) :=
  ⟨by decide, C1_retry_discipline true 5 3 1 c1_gen c1_judge 0 c1_state (by decide)⟩

/-- C7: when the judge evaluation raises (the `except` branch of
`_judge_answer`, which also absorbs `evaluate_answer`'s internal
handler), the score degrades to the neutral 4 with no feedback, the
error field stays unset, the generated answer is untouched, no retry
is triggered, and finalization keeps the generated answer (at most
appending the configured confidence note), so a judge failure never
blocks answer delivery. -/
theorem C7_judge_failure_degrades (s : RAGState) (msg : String) (hi med : Int) (m : Nat)
    (h : s.error = none) :
    (judge_answer true (.error msg) s).judge_score = some 4
    ∧ (judge_answer true (.error msg) s).judge_feedback = none
    ∧ (judge_answer true (.error msg) s).error = none
    ∧ (judge_answer true (.error msg) s).answer = s.answer
    ∧ should_retry true m (judge_answer true (.error msg) s) = "finalize"
    ∧ (finalize_answer true hi med m (judge_answer true (.error msg) s)).answer
        = s.answer ++ ((get_confidence_message hi med 4).getD "") := by
  have hj : judge_answer true (.error msg) s
      = { s with judge_score := some 4, judge_feedback := none } := by
    simp [judge_answer, h, pyTruthy]
  rw [hj]
  refine ⟨rfl, rfl, h, rfl, by simp [should_retry], ?_⟩
  simp only [finalize_answer]
  rw [if_neg (by decide)]
  simp only [Option.getD_some]
  rw [if_neg (fun hc => absurd hc.1 (by decide))]
  cases hcm : get_confidence_message hi med 4 with
  | none => simp [hcm, String.append_empty]
  | some note => simp [hcm]

theorem C7_judge_failure_degrades_witness :
    c7_state.error = none
    ∧ ((judge_answer true (.error "judge timeout") c7_state).judge_score = some 4
      ∧ (judge_answer true (.error "judge timeout") c7_state).judge_feedback = none
      ∧ (judge_answer true (.error "judge timeout") c7_state).error = none
      ∧ (judge_answer true (.error "judge timeout") c7_state).answer = c7_state.answer
      ∧ should_retry true 1 (judge_answer true (.error "judge timeout") c7_state) = "finalize"
      ∧ (finalize_answer true 5 3 1 (judge_answer true (.error "judge timeout") c7_state)).answer
          = c7_state.answer ++ ((get_confidence_message 5 3 4).getD "")) :=
  ⟨rfl, C7_judge_failure_degrades c7_state "judge timeout" 5 3 1 rfl⟩

/-- C10: when `_judge_answer` runs on an error-path state (or when the
judge handle is absent), the judge service is not consulted — the
result is independent of the evaluation outcome — and the score is set
to 5 with no feedback; downstream, with the default high confidence
threshold 5, no retry happens and `_finalize_answer` neither replaces
the errored answer with the refusal nor appends a confidence note, so
the answer delivered is exactly the error text that
`_generate_answer` copied into the answer field. -/
theorem C10_error_path_skips_judge (s : RAGState) (e : String) (he : e ≠ "")
    (hs : s.error = some e) (llm : Except String String)
    (outcome : Except String (Int × Option String)) (med : Int) (m : Nat) :
    (judge_answer true outcome (generate_answer llm s)).judge_score = some 5
    ∧ (judge_answer true outcome (generate_answer llm s)).judge_feedback = none
    ∧ should_retry true m (judge_answer true outcome (generate_answer llm s)) = "finalize"
    ∧ (finalize_answer true 5 med m (judge_answer true outcome (generate_answer llm s))).answer = e
    ∧ (∀ s2 o2, judge_answer false o2 s2 =
        { s2 with judge_score := some 5, judge_feedback := none }) := by
  have ht : pyTruthy s.error = true := by rw [hs]; exact pyTruthy_some e he
  have hg : generate_answer llm s = { s with answer := e } := by
    simp only [generate_answer]
    rw [if_pos ht, hs]
    rfl
  have hje : judge_answer true outcome { s with answer := e }
      = { s with answer := e, judge_score := some 5, judge_feedback := none } := by
    simp only [judge_answer]
    rw [if_pos (by simp only [Bool.not_true, Bool.or_false]; exact ht)]
  rw [hg, hje]
  refine ⟨rfl, rfl, by simp [should_retry], ?_, ?_⟩
  · simp only [finalize_answer]
    rw [if_neg (by decide)]
    simp only [Option.getD_some]
    rw [if_neg (fun hc => absurd hc.1 (by decide))]
    simp [get_confidence_message]
  · intro s2 o2
    simp [judge_answer]

theorem C10_error_path_skips_judge_witness :
    ("Error embedding query: boom" : String) ≠ ""
    ∧ c10_state.error = some "Error embedding query: boom"
    ∧ ((judge_answer true (.ok (1, some "irrelevant"))
          (generate_answer (.ok "ignored") c10_state)).judge_score = some 5
      ∧ (judge_answer true (.ok (1, some "irrelevant"))
          (generate_answer (.ok "ignored") c10_state)).judge_feedback = none
      ∧ should_retry true 1 (judge_answer true (.ok (1, some "irrelevant"))
          (generate_answer (.ok "ignored") c10_state)) = "finalize"
      ∧ (finalize_answer true 5 3 1 (judge_answer true (.ok (1, some "irrelevant"))
          (generate_answer (.ok "ignored") c10_state))).answer = "Error embedding query: boom"
      ∧ (∀ s2 o2, judge_answer false o2 s2 =
          { s2 with judge_score := some 5, judge_feedback := none })) :=
  ⟨by decide, rfl,
   C10_error_path_skips_judge c10_state "Error embedding query: boom" (by decide) rfl
     (.ok "ignored") (.ok (1, some "irrelevant")) 3 1⟩

/-- C2 (amended): for every stage other than the entry stage
`_embed_query`, an input whose error field holds a nonempty string (a
*truthy* error — the code tests `state.get('error')`, under which the
empty string counts as unset) is propagated with the error value
unchanged: retrieval and context building return the state untouched,
generation copies the error text into the answer, the judge call is
skipped with the default score 5, validation fails with the skip
message, and retry preparation and finalization leave the error
intact.  `_embed_query` preserves a set error whenever the embedding
call succeeds (it never clears an error; a failing call overwrites the
error text with the embedding failure message). -/
theorem C2_error_short_circuit (s : RAGState) (e : String) (he : e ≠ "")
    (hs : s.error = some e) (chunks : List Chunk) (m : Rat) (sr : List (Int × Rat))
    (eh hj : Bool) (llm : Except String String)
    (outcome : Except String (Int × Option String)) (cfg : ValidationConfig)
    (hi med : Int) (mr : Nat) (v : List Rat) (msg : String) :
    retrieve_chunks chunks m sr s = s
    ∧ build_context eh s = s
    ∧ generate_answer llm s = { s with answer := e }
    ∧ judge_answer hj outcome s = { s with judge_score := some 5, judge_feedback := none }
    ∧ validate_answer cfg s =
        { s with validation_passed := false,
                 validation_message := "Validation skipped due to error: " ++ e }
    ∧ (prepare_retry s).error = some e
    ∧ (finalize_answer hj hi med mr s).error = some e
    ∧ embed_query (.ok v) s = { s with query_embedding := some v }
    ∧ (embed_query (.error msg) s).error = some ("Error embedding query: " ++ msg) := by
  have ht : pyTruthy s.error = true := by rw [hs]; exact pyTruthy_some e he
  refine ⟨?_, ?_, ?_, ?_, ?_, ?_, ?_, rfl, rfl⟩
  · simp only [retrieve_chunks]
    rw [if_pos ht]
  · simp only [build_context]
    rw [if_pos ht]
  · simp only [generate_answer]
    rw [if_pos ht, hs]
    rfl
  · simp only [judge_answer]
    rw [if_pos (by rw [ht]; rfl)]
  · simp only [validate_answer]
    rw [if_pos ht, hs]
    rfl
  · rw [prepare_retry, hs]
  · rw [error_finalize_answer, hs]

theorem C2_error_short_circuit_witness :
    ("boom" : String) ≠ ""
    ∧ (retrieve_chunks [] 0 [] c2w_state = c2w_state
      ∧ build_context true c2w_state = c2w_state
      ∧ generate_answer (.ok "x") c2w_state = { c2w_state with answer := "boom" }
      ∧ judge_answer true (.ok (1, none)) c2w_state
          = { c2w_state with judge_score := some 5, judge_feedback := none }
      ∧ validate_answer default_validation_cfg c2w_state
          = { c2w_state with
                validation_passed := false
                validation_message := "Validation skipped due to error: " ++ "boom" }
      ∧ (prepare_retry c2w_state).error = some "boom"
      ∧ (finalize_answer true 5 3 1 c2w_state).error = some "boom"
      ∧ embed_query (.ok [1]) c2w_state = { c2w_state with query_embedding := some [1] }
      ∧ (embed_query (.error "down") c2w_state).error
          = some ("Error embedding query: " ++ "down")) :=
  ⟨by decide,
   C2_error_short_circuit c2w_state "boom" (by decide) rfl [] 0 [] true true
     (.ok "x") (.ok (1, none)) default_validation_cfg 5 3 1 [1] "down"⟩

theorem C2_claim_counterexample :
    c2_state.error = some ""
    ∧ (retrieve_chunks [] 0 [] c2_state).error = some (no_relevant_message 0)
    ∧ (retrieve_chunks [] 0 [] c2_state).error ≠ c2_state.error := by
  refine ⟨rfl, rfl, by decide⟩

theorem collect_results_scores (chunks : List Chunk) (m : Rat) :
    ∀ sr rs, collect_results chunks m sr = .ok rs → ∀ c ∈ rs, m ≤ c.score := by
  intro sr
  induction sr with
  | nil =>
    intro rs h c hc
    simp only [collect_results, Except.ok.injEq] at h
    subst h
    cases hc
  | cons p rest ih =>
    intro rs h c hc
    obtain ⟨idx, score⟩ := p
    simp only [collect_results] at h
    split at h
    · rename_i hguard
      cases hget : pyListGet chunks idx with
      | none => rw [hget] at h; cases h
      | some c0 =>
        rw [hget] at h
        cases hrest : collect_results chunks m rest with
        | error e => rw [hrest] at h; cases h
        | ok rs0 =>
          rw [hrest] at h
          simp only [Except.map, Except.ok.injEq] at h
          subst h
          cases hc with
          | head => exact hguard.2
          | tail _ htail => exact ih rs0 hrest c htail
    · exact ih rs h c hc

theorem pyListGet_neg_one (l : List Chunk) (h : l ≠ []) :
    pyListGet l (-1) = some (l.getLast h) := by
  have hl : 0 < l.length := List.length_pos.mpr h
  simp only [pyListGet]
  rw [if_neg (by omega), if_pos (by omega)]
  have h2 : ((l.length : Int) + (-1)).toNat = l.length - 1 := by omega
  rw [h2, List.get?_eq_getElem?, ← List.getLast?_eq_getElem?,
    List.getLast?_eq_getLast_of_ne_nil h]

/-- C3: a retrieval pass whose filtering loop completes returns
exactly the surviving chunks, every one of which carries a relevance
score at least `min_score`; when none survives, `_retrieve_chunks`
sets the no-relevant-information error (activating the error path),
and otherwise it leaves the error field unchanged. -/
theorem C3_score_threshold (chunks : List Chunk) (m : Rat) (sr : List (Int × Rat))
    (s : RAGState) (rs : List Chunk) (herr : pyTruthy s.error = false)
    (hok : collect_results chunks m sr = .ok rs) :
    (retrieve_chunks chunks m sr s).retrieved_chunks = rs
    ∧ (∀ c ∈ rs, m ≤ c.score)
    ∧ (rs = [] → (retrieve_chunks chunks m sr s).error = some (no_relevant_message m))
    ∧ (rs ≠ [] → (retrieve_chunks chunks m sr s).error = s.error) := by
  have hr : retrieve_chunks chunks m sr s =
      (if rs.isEmpty then
        { ({ s with retrieved_chunks := rs } : RAGState) with
            error := some (no_relevant_message m) }
      else { s with retrieved_chunks := rs }) := by
    simp only [retrieve_chunks]
    rw [if_neg (by rw [herr]; exact Bool.false_ne_true), hok]
  refine ⟨?_, collect_results_scores chunks m sr rs hok, ?_, ?_⟩
  · rw [hr]
    split <;> rfl
  · intro hempty
    rw [hr, if_pos (by rw [hempty]; rfl)]
  · intro hne
    rw [hr, if_neg (by simp [List.isEmpty_iff, hne])]

theorem C3_score_threshold_witness :
    pyTruthy (initial_state demo_query []).error = false
    ∧ collect_results c3_chunks 1 c3_search = .ok [{ demo_chunk with score := 2 }]
    ∧ ((retrieve_chunks c3_chunks 1 c3_search
          (initial_state demo_query [])).retrieved_chunks = [{ demo_chunk with score := 2 }]
      ∧ (∀ c ∈ [{ demo_chunk with score := 2 }], (1 : Rat) ≤ c.score)
      ∧ ([{ demo_chunk with score := 2 }] = ([] : List Chunk) →
          (retrieve_chunks c3_chunks 1 c3_search (initial_state demo_query [])).error
            = some (no_relevant_message 1))
      ∧ ([{ demo_chunk with score := 2 }] ≠ ([] : List Chunk) →
          (retrieve_chunks c3_chunks 1 c3_search (initial_state demo_query [])).error
            = (initial_state demo_query []).error)) :=
  ⟨rfl, rfl,
   C3_score_threshold c3_chunks 1 c3_search (initial_state demo_query [])
     [{ demo_chunk with score := 2 }] rfl rfl⟩

/-- C9: in the retrieval loop, a search-result index at or beyond the
number of loaded chunks is silently skipped (no out-of-bounds error,
the remaining results are processed as if it were absent), while the
guard `idx < len(self.chunks)` admits negative indices: an index of
`-1` whose score meets the threshold selects the *last* loaded chunk
through Python negative indexing and prepends it to the survivors. -/
theorem C9_negative_index (chunks : List Chunk) (m sc : Rat) (rest : List (Int × Rat))
    (i : Int) (hi : (chunks.length : Int) ≤ i) (hsc : m ≤ sc) (hne : chunks ≠ []) :
    collect_results chunks m ((i, sc) :: rest) = collect_results chunks m rest
    ∧ collect_results chunks m (((-1 : Int), sc) :: rest) =
        (collect_results chunks m rest).map
          (fun rs => { chunks.getLast hne with score := sc } :: rs) := by
  constructor
  · simp only [collect_results]
    rw [if_neg (fun hc => absurd hc.1 (by omega))]
  · simp only [collect_results]
    rw [if_pos ⟨by omega, hsc⟩, pyListGet_neg_one chunks hne]

theorem C9_negative_index_witness :
    (c3_chunks.length : Int) ≤ 5 ∧ (1 : Rat) ≤ 2 ∧ c3_chunks ≠ []
    ∧ (collect_results c3_chunks 1 [((5 : Int), (2 : Rat))]
          = collect_results c3_chunks 1 []
      ∧ collect_results c3_chunks 1 [((-1 : Int), (2 : Rat))]
          = (collect_results c3_chunks 1 []).map
              (fun rs => { c3_chunks.getLast (by decide) with score := 2 } :: rs)) :=
  ⟨by decide, by decide, by decide,
   C9_negative_index c3_chunks 1 2 [] 5 (by decide) (by decide) (by decide)⟩

theorem pyTake_length (s : String) (n : Nat) : (pyTake s n).length = min n s.length := by
  simp only [pyTake, String.length_mk, List.length_take]
  rfl

/-- C4: for every judge response — structured JSON or the free-text
fallback, parseable or not — the parsed score is an integer clamped
into [1,6]; the returned feedback is `None` whenever the score exceeds
2; and any non-null feedback is at most 150 characters long. -/
theorem C4_parse_bounds (r : JudgeResponseShape) :
    1 ≤ (parse_judge_response r).1 ∧ (parse_judge_response r).1 ≤ 6
    ∧ (2 < (parse_judge_response r).1 → (parse_judge_response r).2 = none)
    ∧ (∀ fb, (parse_judge_response r).2 = some fb → fb.length ≤ 150) := by
  cases r with
  | structured rawScore rawFeedback =>
    simp only [parse_judge_response]
    refine ⟨by omega, by omega, fun hgt => ?_, fun fb hfb => ?_⟩
    · rw [if_neg (by omega)]
    · split at hfb
      · split at hfb
        · split at hfb
          · rename_i f heq hlen
            rw [Option.some.injEq] at hfb
            subst hfb
            rw [String.length_append, pyTake_length]
            have h3 : ("..." : String).length = 3 := rfl
            omega
          · rename_i f heq hlen
            rw [Option.some.injEq] at hfb
            subst hfb
            omega
        · cases hfb
      · cases hfb
  | fallback scoreDigit feedbackText =>
    cases scoreDigit with
    | some d =>
      simp only [parse_judge_response]
      refine ⟨by omega, by omega, fun hgt => ?_, fun fb hfb => ?_⟩
      · rw [if_neg (by omega)]
      · split at hfb
        · cases feedbackText with
          | none => cases hfb
          | some f =>
            rw [Option.map_some', Option.some.injEq] at hfb
            subst hfb
            rw [pyTake_length]
            omega
        · cases hfb
    | none =>
      simp only [parse_judge_response]
      refine ⟨by omega, by omega, fun _ => ?_, fun fb hfb => ?_⟩
      · rw [if_neg (by omega)]
      · rw [if_neg (by omega)] at hfb
        cases hfb

theorem C4_parse_bounds_witness :
    1 ≤ (parse_judge_response (.structured 9 (some "speculative"))).1
    ∧ (parse_judge_response (.structured 9 (some "speculative"))).1 ≤ 6
    ∧ (2 < (parse_judge_response (.structured 9 (some "speculative"))).1 →
        (parse_judge_response (.structured 9 (some "speculative"))).2 = none)
    ∧ (∀ fb, (parse_judge_response (.structured 9 (some "speculative"))).2 = some fb →
        fb.length ≤ 150) :=
  C4_parse_bounds (.structured 9 (some "speculative"))

theorem update_history_length_le (m : Nat) (hm : 1 ≤ m) (o : QueryOutcome)
    (h : List ConversationTurn) (hh : h.length ≤ m) :
    (update_history m o h).length ≤ m := by
  simp only [update_history]
  split
  · have hlen2 : (h ++ [(⟨o.query, o.answer⟩ : ConversationTurn)]).length = h.length + 1 := by
      simp
    split
    · rename_i hgt
      simp only [pySliceFrom]
      rw [if_pos (by omega), List.length_drop]
      omega
    · rename_i hle
      omega
  · exact hh

theorem update_history_suffix (m : Nat) (o : QueryOutcome) (h : List ConversationTurn) :
    update_history m o h <:+
      h ++ (if o.validation_passed && !pyTruthy o.error then
              [(⟨o.query, o.answer⟩ : ConversationTurn)] else []) := by
  simp only [update_history]
  split
  · split
    · simp only [pySliceFrom]
      split
      · exact List.drop_suffix _ _
      · exact List.drop_suffix _ _
    · exact List.suffix_refl _
  · rw [List.append_nil]

theorem suffix_append_same {l1 l2 : List ConversationTurn} (h : l1 <:+ l2)
    (l3 : List ConversationTurn) : l1 ++ l3 <:+ l2 ++ l3 := by
  obtain ⟨p, hp⟩ := h
  exact ⟨p, by rw [← List.append_assoc, hp]⟩

theorem run_session_length_le (m : Nat) (hm : 1 ≤ m) (os : List QueryOutcome) :
    ∀ h : List ConversationTurn, h.length ≤ m → (run_session m os h).length ≤ m := by
  induction os with
  | nil => intro h hh; exact hh
  | cons o os ih =>
    intro h hh
    exact ih (update_history m o h) (update_history_length_le m hm o h hh)

theorem run_session_suffix (m : Nat) (os : List QueryOutcome) :
    ∀ h : List ConversationTurn, run_session m os h <:+ h ++ session_log os := by
  induction os with
  | nil =>
    intro h
    simp only [run_session, session_log, List.append_nil]
    exact List.suffix_refl _
  | cons o os ih =>
    intro h
    simp only [run_session, session_log]
    have h1 := ih (update_history m o h)
    have h2 := suffix_append_same (update_history_suffix m o h) (session_log os)
    rw [List.append_assoc] at h2
    exact h1.trans h2

/-- C5 (amended): for `max_history_turns ≥ 1`, after any sequence of
queries the session history never exceeds `max_history_turns` entries
and is always a suffix — the most recent entries, in order — of the
full log of retained turns (FIFO eviction of the oldest); a turn is
appended only when the outcome passed validation with a falsy error
field.  (For `max_history_turns = 0` the truncation slice
`history[-0:]` is the whole list, so the bound fails — see the
counterexample.) -/
theorem C5_history_bound (m : Nat) (hm : 1 ≤ m) (os : List QueryOutcome) :
    (run_session m os []).length ≤ m
    ∧ run_session m os [] <:+ session_log os
    ∧ (∀ o h, (o.validation_passed && !pyTruthy o.error) = false →
        update_history m o h = h) := by
  refine ⟨run_session_length_le m hm os [] (by simp), ?_, ?_⟩
  · have h := run_session_suffix m os []
    rwa [List.nil_append] at h
  · intro o h hc
    simp only [update_history]
    rw [if_neg (by rw [hc]; exact Bool.false_ne_true)]

theorem C5_history_bound_witness :
    1 ≤ 5
    ∧ ((run_session 5 [c5_outcome] []).length ≤ 5
      ∧ run_session 5 [c5_outcome] [] <:+ session_log [c5_outcome]
      ∧ (∀ o h, (o.validation_passed && !pyTruthy o.error) = false →
          update_history 5 o h = h)) :=
  ⟨by decide, C5_history_bound 5 (by decide) [c5_outcome]⟩

theorem C5_claim_counterexample :
    ¬ (run_session 0 [c5_outcome] []).length ≤ 0 := by decide

/-- C6 (amended): when `_build_context` assembles a prompt (no truthy
error, nonempty chunk list), the prompt is exactly the retry-feedback
preamble followed by the rest of the prompt; the preamble is empty
whenever `is_retry` is false, and when `is_retry` is true and the
judge feedback is a *nonempty* string the preamble is present and
contains the previous answer text and the feedback text verbatim.
(The code tests `state.get('judge_feedback')` for truthiness, so a
non-null but empty feedback produces no preamble — see the
counterexample.) -/
theorem C6_retry_preamble (eh : Bool) (s : RAGState) (fb : String)
    (herr : pyTruthy s.error = false) (hch : s.retrieved_chunks.isEmpty = false) :
    (build_context eh s).context = feedback_section s ++ prompt_after_feedback eh s
    ∧ (s.is_retry = false → feedback_section s = "")
    ∧ (s.is_retry = true → s.judge_feedback = some fb → fb ≠ "" →
        feedback_section s =
          retry_note_head ++ s.answer ++ retry_note_mid ++ fb ++ retry_note_tail) := by
  refine ⟨?_, ?_, ?_⟩
  · simp only [build_context]
    rw [if_neg (by rw [herr]; exact Bool.false_ne_true),
      if_neg (by rw [hch]; exact Bool.false_ne_true)]
  · intro hr
    simp [feedback_section, hr]
  · intro hr hf hne
    simp only [feedback_section, hr, hf, Bool.true_and]
    rw [if_pos (pyTruthy_some fb hne)]
    rfl

theorem C6_retry_preamble_witness :
    pyTruthy c6w_state.error = false ∧ c6w_state.retrieved_chunks.isEmpty = false
    ∧ ((build_context true c6w_state).context
          = feedback_section c6w_state ++ prompt_after_feedback true c6w_state
      ∧ (c6w_state.is_retry = false → feedback_section c6w_state = "")
      ∧ (c6w_state.is_retry = true → c6w_state.judge_feedback = some "missing citations" →
          ("missing citations" : String) ≠ "" →
          feedback_section c6w_state =
            retry_note_head ++ c6w_state.answer ++ retry_note_mid ++ "missing citations"
              ++ retry_note_tail)) :=
  ⟨rfl, rfl, C6_retry_preamble true c6w_state "missing citations" rfl rfl⟩

theorem C6_claim_counterexample :
    c6_state.is_retry = true ∧ c6_state.judge_feedback = some ""
    ∧ feedback_section c6_state = ""
    ∧ (build_context true c6_state).context = prompt_after_feedback true c6_state := by
  refine ⟨rfl, rfl, rfl, ?_⟩
  show feedback_section c6_state ++ prompt_after_feedback true c6_state
      = prompt_after_feedback true c6_state
  rw [show feedback_section c6_state = "" from rfl, String.empty_append]

/-- C8: each of the three validator checks is switched by its own
configuration option — `require_citations` for the citation check,
`min_answer_length` (set to 0) for the length check, `check_grounding`
for the grounding heuristic (disabling it removes exactly the
grounding issue and nothing else) — and when `require_citations` is
disabled globally, `_validate_answer` passes every answer regardless
of content (on a state whose error field is falsy). -/
theorem C8_checks_config (cfg : ValidationConfig) (s : RAGState) (a : String)
    (herr : pyTruthy s.error = false) :
    (cfg.require_citations = false →
      (validate_answer cfg s).validation_passed = true
      ∧ (validate_answer cfg s).validation_message = "Validation disabled in config")
    ∧ grounding_issue { cfg with check_grounding := false } a = []
    ∧ length_issue { cfg with min_answer_length := 0 } a = []
    ∧ validation_issues { cfg with check_grounding := false } a
        = citation_issue cfg a ++ length_issue cfg a := by
  refine ⟨?_, ?_, ?_, ?_⟩
  · intro hreq
    have hv : validate_answer cfg s =
        { s with validation_passed := true
                 validation_message := "Validation disabled in config" } := by
      simp only [validate_answer]
      rw [if_neg (by rw [herr]; exact Bool.false_ne_true), if_pos (by rw [hreq]; rfl)]
    rw [hv]
    exact ⟨rfl, rfl⟩
  · simp [grounding_issue]
  · simp [length_issue]
  · simp [validation_issues, grounding_issue, citation_issue, length_issue]

theorem C8_checks_config_witness :
    pyTruthy c8_state.error = false
    ∧ ((c8_cfg.require_citations = false →
        (validate_answer c8_cfg c8_state).validation_passed = true
        ∧ (validate_answer c8_cfg c8_state).validation_message = "Validation disabled in config")
      ∧ grounding_issue { c8_cfg with check_grounding := false } "hi" = []
      ∧ length_issue { c8_cfg with min_answer_length := 0 } "hi" = []
      ∧ validation_issues { c8_cfg with check_grounding := false } "hi"
          = citation_issue c8_cfg "hi" ++ length_issue c8_cfg "hi") :=
  ⟨rfl, C8_checks_config c8_cfg c8_state "hi" rfl⟩

end RepoAnalyst
